import Mathlib

/-!
Shallow embedding of the git-client adapter layer (GitHub-family, GitLab,
Bitbucket) and proofs about its observable behavior.

Each definition mirrors one function of the TypeScript source
(`src/lib/github/index.ts`, `src/lib/gitlab/index.ts`,
`src/lib/bitbucket/index.ts`).  HTTP calls are modelled by passing the
outcome of the call (the decoded response body, or the thrown error) as an
explicit argument; JavaScript `undefined`-able strings are modelled as
`Option String`, and JS truthiness / template-literal rendering are modelled
by small explicit helpers.
-/

namespace GitClient

/-! ## String helpers (JS string primitives used by the source) -/

/-- Whether `pat` occurs as a contiguous substring of `l` (character lists).
This is the semantics of a JS `String.prototype.match` / `RegExp.test` call
against a regex that is a plain literal text pattern. -/
def containsSub (pat : List Char) : List Char → Bool
  | [] => pat.isEmpty
  | c :: rest => pat.isPrefixOf (c :: rest) || containsSub pat rest

/-- Substring containment on `String`. -/
def strContainsSubstr (s pat : String) : Bool :=
  containsSub pat.data s.data

/-- Remove the first occurrence of `pat` from `l` (character lists).  This is
JS `String.prototype.replace(pat, buildReplacement)` with a string pattern and an
empty replacement: only the first occurrence, anywhere in the string, is
affected; a string with no occurrence is returned unchanged. -/
def removeFirstSub (pat : List Char) : List Char → List Char
  | [] => []
  | c :: rest =>
    if pat.isPrefixOf (c :: rest) then (c :: rest).drop pat.length
    else c :: removeFirstSub pat rest

/-- JS `s.replace(pat, emptyString)` on `String`s (first occurrence only). -/
def strRemoveFirst (s pat : String) : String :=
  ⟨removeFirstSub pat.data s.data⟩

/-- Index of the last occurrence of `sep` in `s`, if any. -/
def lastSubIdx (sep s : List Char) : Option Nat :=
  ((List.range (s.length + 1)).filter (fun i => sep.isPrefixOf (s.drop i))).getLast?

/-- Semantics of `/(.*):\x2f\x2f(.*)\x2f*/.exec(s)` from
`Gitlab.buildWebhookData`: both capture groups are greedy and the trailing
`\x2f*` can match the empty string, so a successful match splits `s` at the
LAST occurrence of the separator, group 2 keeping everything after
it (including any trailing slash).  `exec` returns `null` (here `none`) when
`s` has no `colon-slash-slash` separator at all. -/
def execUrlPattern (s : String) : Option (String × String) :=
  match lastSubIdx "://".data s.data with
  | none => none
  | some i => some (⟨s.data.take i⟩, ⟨s.data.drop (i + 3)⟩)

/-! ## Base64 (Node `new Buffer(content, encoding)` with base64 encoding) -/

/-- Value of one base64 alphabet character; `none` for characters outside the
alphabet (the Node decoder skips those, including the `=` padding). -/
def base64Val (c : Char) : Option Nat :=
  if 'A' ≤ c ∧ c ≤ 'Z' then some (c.toNat - 65)
  else if 'a' ≤ c ∧ c ≤ 'z' then some (c.toNat - 97 + 26)
  else if '0' ≤ c ∧ c ≤ '9' then some (c.toNat - 48 + 52)
  else if c = '+' then some 62
  else if c = '/' then some 63
  else none

/-- Bit-accumulating base64 decoder: `acc` holds `bits` pending bits; every
time 8 bits are available one byte is emitted. -/
def base64Fold : List Char → Nat → Nat → List Nat
  | [], _, _ => []
  | c :: rest, acc, bits =>
    match base64Val c with
    | none => base64Fold rest acc bits
    | some v =>
      let acc2 := acc * 64 + v
      let bits2 := bits + 6
      if 8 ≤ bits2 then
        acc2 / 2 ^ (bits2 - 8) :: base64Fold rest (acc2 % 2 ^ (bits2 - 8)) (bits2 - 8)
      else
        base64Fold rest acc2 bits2

/-- Decode a base64 string to its byte sequence. -/
def base64Decode (s : String) : List Nat :=
  base64Fold s.data 0 0

/-- Byte view of an ASCII string (used to compare returned contents). -/
def asciiBytes (s : String) : List Nat :=
  s.data.map Char.toNat

/-! ## JS option-value helpers -/

/-- JS truthiness of an optional string: `undefined` and `""` are falsy. -/
def jsTruthy : Option String → Bool
  | none => false
  | some s => !(s == "")

/-- Rendering of a possibly-`undefined` string inside a JS template literal
(` dollar-brace x brace `): `undefined` renders as the text `"undefined"`. -/
def jsTpl : Option String → String
  | none => "undefined"
  | some s => s

/-! ## Configuration (`TypedGitRepoConfig` from `git.model`) -/

/-- Repository configuration shared by all adapters.  The source type lives in
`git.model.ts`; the fields used by the adapter code are modelled. -/
structure TypedGitRepoConfig where
  owner : String
  repo : String
  protocol : String
  host : String
  username : String
  password : String
  branch : String
  deriving DecidableEq

/-! ## Errors -/

/-- The part of a superagent error `response` the adapters read:
`response.header` with the capitalised key used by the source
(`Retry-After`), and `response.text`. -/
structure SuperagentResponse where
  retryAfterHeader : Option String
  text : String
  deriving DecidableEq

/-- A thrown JavaScript error as the adapters observe it: either a superagent
response error (carrying `status`, `message` and the `response`), or a plain
`Error` (carrying only `message`). -/
inductive JsError where
  | responseError (status : Nat) (message : String) (response : SuperagentResponse)
  | plainError (message : String)
  deriving DecidableEq

/-- Modelled from the spec: `isResponseError` from `util/superagent-support`
(not under `src/`) is the type guard distinguishing a superagent response
error from any other thrown value. -/
def isResponseError : JsError → Bool
  | .responseError _ _ _ => true
  | .plainError _ => false

/-- `err.message`. -/
def JsError.message : JsError → String
  | .responseError _ m _ => m
  | .plainError m => m

/-- `err.response.text`; only read by the source after `isResponseError`
holds, so the plain-error branch is never reached. -/
def JsError.responseText : JsError → String
  | .responseError _ _ r => r.text
  | .plainError _ => ""

/-- Errors an adapter operation can raise to its caller: a re-raised raw JS
error, or one of the two webhook error classes.  Modelled from the spec:
`WebhookAlreadyExists` and `UnknownWebhookError` are declared in `git.api.ts`
(not under `src/`); per the spec and the call sites they carry a message and
the original error as their cause. -/
inductive ThrownError where
  | js (err : JsError)
  | webhookAlreadyExists (message : String) (cause : JsError)
  | unknownWebhookError (message : String) (cause : JsError)
  deriving DecidableEq

/-! ## GitHub-family adapter (`src/lib/github/index.ts`) -/

inductive GithubEvent where
  | push
  | pullRequest
  deriving DecidableEq

/-- The enum `GithubEvent` maps `push` to the text `push` and `pullRequest` to
the text `pull_request`. -/
def githubEventName : GithubEvent → String
  | .push => "push"
  | .pullRequest => "pull_request"

inductive GithubTreeType where
  | blob
  | tree
  deriving DecidableEq

/-- One entry of the GitHub tree response (interface `Tree`). -/
structure GithubTreeEntry where
  path : String
  mode : String
  type : GithubTreeType
  sha : String
  url : String
  deriving DecidableEq

/-- The GitHub tree response (interface `TreeResponse`; the unused
`truncated` flag is omitted). -/
structure TreeResponse where
  sha : String
  url : String
  tree : List GithubTreeEntry
  deriving DecidableEq

/-- `GithubCommon.listFiles`: one get-tree request, then
`treeResponse.tree.filter` keeping entries whose `type` is `blob`.  The HTTP response
body is the argument. -/
def GithubCommon.listFiles (response : TreeResponse) : List GithubTreeEntry :=
  response.tree.filter (fun t => t.type == GithubTreeType.blob)

/-- The transfer encoding declared by the GitHub / GitLab file-contents
response types (the `encoding` field holding the literal text `base64`). -/
inductive TransferEncoding where
  | base64
  deriving DecidableEq

/-- GitHub file-contents response (interface `FileResponse`; metadata fields
`url`, `sha`, `size`, `node_id` are unused by the function and omitted). -/
structure GithubFileResponse where
  content : String
  encoding : TransferEncoding
  deriving DecidableEq

/-- Node `new Buffer(content, encoding)`: decodes `content` according to the
declared transfer encoding. -/
def bufferFrom (content : String) : TransferEncoding → List Nat
  | .base64 => base64Decode content

/-- `GithubCommon.getFileContents`: fetches the descriptor URL (or the
contents path) and returns `new Buffer(fileResponse.content,
fileResponse.encoding)`.  The HTTP response body is the argument. -/
def GithubCommon.getFileContents (fileResponse : GithubFileResponse) : List Nat :=
  bufferFrom fileResponse.content fileResponse.encoding

/-- Outcome of one call to `GithubCommon.exec`: the value returned or error
raised, how many times the wrapped closure `f` was invoked, and the sequence
of back-off sleeps (in ms) performed along the way. -/
structure ExecOutcome (α : Type) where
  result : Except JsError α
  fCalls : Nat
  sleepsMs : List Nat

/-- The condition of the `catch` branch in `GithubCommon.exec`:
`isResponseError(err) && err.status === 403 &&
rateLimitRegex.test(err.message)` with
`rateLimitRegex = any text, secondary rate limit, any text` — i.e. a
superagent response error with status 403 whose message contains the text
`secondary rate limit`. -/
def isSecondaryRateLimit : JsError → Bool
  | .responseError status message _ =>
    status == 403 && strContainsSubstr message "secondary rate limit"
  | .plainError _ => false

/-- `GithubCommon.exec(f, name)`, modelled on the stream of outcomes of the
successive invocations of `f` (`attempts n` is what the promise of the
`n`-th invocation settles to).

The loop body of the source is `try { return f(); } catch (err) { ... }`
inside `while (true)`.  `f()` is invoked and the promise it returns is
returned WITHOUT `await`: the `try` block completes normally with that
promise as the result of `exec`, and the later rejection of that promise is not an
exception raised inside the block, so the `catch` branch (the
secondary-rate-limit test, the `Retry-After` back-off sleep, the retry, and
the debug logging) never runs.  The first loop iteration therefore always
returns the outcome of attempt 0 — fulfilled or rejected — with no sleep and
no further invocation of `f`. -/
def GithubCommon.exec {α : Type} (attempts : Nat → Except JsError α) : ExecOutcome α :=
  { result := attempts 0, fCalls := 1, sleepsMs := [] }

/-- The fields of the GitHub pull-request response body read by
`getPullRequest` (`number`, `head.ref`, `base.ref`). -/
structure PullResponseBody where
  number : Int
  headRef : String
  baseRef : String
  deriving DecidableEq

/-- The shared `PullRequest` result type from `git.api`. -/
structure PullRequest where
  pullNumber : Int
  sourceBranch : String
  targetBranch : String
  deriving DecidableEq

/-- `CreatePullRequestOptions` from `git.api` as used by the source. -/
structure CreatePullRequestOptions where
  title : String
  sourceBranch : String
  targetBranch : String
  maintainer_can_modify : Bool
  draft : Option Bool
  deriving DecidableEq

/-- `MergePullRequestOptions` from `git.api` as used by the source. -/
structure MergePullRequestOptions where
  pullNumber : Int
  title : String
  message : String
  method : String
  deriving DecidableEq

/-- The field of the GitHub merge / update-branch response body read by the
source (`body.message`). -/
structure MessageBody where
  message : String
  deriving DecidableEq

/-- The field of the GitHub create-pull response body read by the source
(`body.number`). -/
structure NumberBody where
  number : Int
  deriving DecidableEq

/-- `GithubCommon.getPullRequest`: wraps in `exec` a closure that GETs
`/pulls/<n>` and builds a `PullRequest` from the response body.  `http n` is
the outcome of the `n`-th HTTP attempt. -/
def GithubCommon.getPullRequest (http : Nat → Except JsError PullResponseBody) :
    ExecOutcome PullRequest :=
  GithubCommon.exec (fun n =>
    (http n).map (fun b =>
      { pullNumber := b.number, sourceBranch := b.headRef, targetBranch := b.baseRef }))

/-- `GithubCommon.createPullRequest`: wraps in `exec` a closure that POSTs
`/pulls` and builds a `PullRequest` from the response `number` and the given
options. -/
def GithubCommon.createPullRequest (options : CreatePullRequestOptions)
    (http : Nat → Except JsError NumberBody) : ExecOutcome PullRequest :=
  GithubCommon.exec (fun n =>
    (http n).map (fun b =>
      { pullNumber := b.number, sourceBranch := options.sourceBranch,
        targetBranch := options.targetBranch }))

/-- `GithubCommon.mergePullRequest`: wraps in `exec` a closure that PUTs
`/pulls/<n>/merge` and returns `response.body.message`. -/
def GithubCommon.mergePullRequest (http : Nat → Except JsError MessageBody) :
    ExecOutcome String :=
  GithubCommon.exec (fun n => (http n).map (fun b => b.message))

/-- `GithubCommon.updatePullRequestBranch`: wraps in `exec` a closure that
PUTs `/pulls/<n>/update-branch` and returns `response.body.message`. -/
def GithubCommon.updatePullRequestBranch (http : Nat → Except JsError MessageBody) :
    ExecOutcome String :=
  GithubCommon.exec (fun n => (http n).map (fun b => b.message))

/-- `GithubCommon.createWebhook`: POST `/hooks`, return `response.body.id`;
on a thrown error, classify: a response error whose `response.text` matches
`Hook already exists` raises `WebhookAlreadyExists`, any other response
error raises `UnknownWebhookError` with the message `Unknown error creating
webhook`,
and a non-response error raises `UnknownWebhookError(err.message, err)`.
`postResult` is the outcome of the POST. -/
def GithubCommon.createWebhook (postResult : Except JsError String) :
    Except ThrownError String :=
  match postResult with
  | .ok id => .ok id
  | .error err =>
    if isResponseError err then
      if strContainsSubstr err.responseText "Hook already exists" then
        .error (.webhookAlreadyExists "Webhook already exists on repository" err)
      else
        .error (.unknownWebhookError "Unknown error creating webhook" err)
    else
      .error (.unknownWebhookError err.message err)

/-- `GithubCommon.getRef`: the template `refs/heads/` followed by the
configured branch. -/
def GithubCommon.getRef (config : TypedGitRepoConfig) : String :=
  "refs/heads/" ++ config.branch

/-- The `jenkinsUrl`/`webhookUrl` pair destructured by
`GithubCommon.buildWebhookData`. -/
structure GithubWebhookParams where
  jenkinsUrl : Option String
  webhookUrl : Option String
  deriving DecidableEq

/-- `GitHookConfig` from `git.model` as the source fills it:
`content_type` is `GitHookContentType.json` (the text `json`) and
`insecure_ssl` is `GitHookUrlVerification.performed` (the text `0`). -/
structure GitHookConfig where
  url : String
  content_type : String
  insecure_ssl : String
  deriving DecidableEq

/-- The GitHub webhook payload (`GitHookData`). -/
structure GitHookData where
  name : String
  active : Bool
  events : List GithubEvent
  config : GitHookConfig
  deriving DecidableEq

/-- `GithubCommon.buildWebhookData`: hook URL is `webhookUrl` when truthy,
otherwise the template `jenkinsUrl` followed by `/github-webhook/`; the hook
is named `web`, active, subscribed to the `push` event, with JSON content
type and URL verification enabled. -/
def GithubCommon.buildWebhookData (p : GithubWebhookParams) : GitHookData :=
  let url : String :=
    if jsTruthy p.webhookUrl then jsTpl p.webhookUrl
    else jsTpl p.jenkinsUrl ++ "/github-webhook/"
  { name := "web"
    active := true
    events := [GithubEvent.push]
    config := { url := url, content_type := "json", insecure_ssl := "0" } }

/-! ## GitLab adapter (`src/lib/gitlab/index.ts`) -/

inductive GitlabTreeType where
  | blob
  | tree
  deriving DecidableEq

/-- One entry of the GitLab repository-tree response (interface `Tree`). -/
structure GitlabTreeEntry where
  id : String
  name : String
  type : GitlabTreeType
  path : String
  mode : String
  deriving DecidableEq

/-- A `path`/`url` pair as produced by `Gitlab.listFiles` and
`Bitbucket.listFiles`. -/
structure FileRef where
  path : String
  url : String
  deriving DecidableEq

/-- `Gitlab.getBaseUrl`: the project resource with the repository path
double-URL-encoded (`owner, percent-2F, repo`) as a single segment. -/
def Gitlab.getBaseUrl (config : TypedGitRepoConfig) : String :=
  config.protocol ++ "://" ++ config.host ++ "/api/v4/projects/" ++
    config.owner ++ "%2F" ++ config.repo

/-- `Gitlab.listFiles`: one repository-tree request (branch filter,
`per_page=1000`), filter to `blob` entries, then map each entry to
`path.replace` removing the first `files/` occurrence, paired with a
contents URL built from the
ORIGINAL tree path.  The HTTP response body (a tree-entry array) is the
argument. -/
def Gitlab.listFiles (config : TypedGitRepoConfig) (treeResponse : List GitlabTreeEntry) :
    List FileRef :=
  (treeResponse.filter (fun t => t.type == GitlabTreeType.blob)).map (fun t =>
    { path := strRemoveFirst t.path "files/"
      url := Gitlab.getBaseUrl config ++ "/repository/" ++ t.path })

/-- GitLab file-contents response (interface `FileResponse`; metadata fields
unused by the function are omitted). -/
structure GitlabFileResponse where
  content : String
  encoding : TransferEncoding
  deriving DecidableEq

/-- `Gitlab.getFileContents`: fetch the descriptor URL and return
`new Buffer(fileResponse.content, fileResponse.encoding)`. -/
def Gitlab.getFileContents (fileResponse : GitlabFileResponse) : List Nat :=
  bufferFrom fileResponse.content fileResponse.encoding

/-- `Gitlab.getPullRequest`: throws a plain `Error` whose message is
`Method not implemented: getPullRequest`, for every input. -/
def Gitlab.getPullRequest (_pullNumber : Int) : Except JsError PullRequest :=
  .error (.plainError "Method not implemented: getPullRequest")

/-- `Gitlab.createPullRequest`: unimplemented, always throws. -/
def Gitlab.createPullRequest (_options : CreatePullRequestOptions) :
    Except JsError PullRequest :=
  .error (.plainError "Method not implemented: createPullRequest")

/-- `Gitlab.mergePullRequest`: unimplemented, always throws. -/
def Gitlab.mergePullRequest (_options : MergePullRequestOptions) : Except JsError String :=
  .error (.plainError "Method not implemented: mergePullRequest")

/-- `Gitlab.updatePullRequestBranch`: unimplemented, always throws. -/
def Gitlab.updatePullRequestBranch (_pullNumber : Int) : Except JsError String :=
  .error (.plainError "Method not implemented: updatePullRequestBranch")

/-- `Gitlab.createWebhook` error classification: identical to the GitHub
adapter (same match on `Hook already exists`, same two error classes). -/
def Gitlab.createWebhook (postResult : Except JsError String) : Except ThrownError String :=
  match postResult with
  | .ok id => .ok id
  | .error err =>
    if isResponseError err then
      if strContainsSubstr err.responseText "Hook already exists" then
        .error (.webhookAlreadyExists "Webhook already exists on repository" err)
      else
        .error (.unknownWebhookError "Unknown error creating webhook" err)
    else
      .error (.unknownWebhookError err.message err)

/-- The parameter bag of `Gitlab.buildWebhookData` (interface
`GitlabParams`); the adapter passes `Object.assign({}, this.config, options)`
so `owner` and `repo` come from the config. -/
structure GitlabParams where
  owner : String
  repo : String
  jenkinsUrl : Option String
  jenkinsUser : Option String
  jenkinsPassword : Option String
  jobName : Option String
  webhookUrl : Option String
  deriving DecidableEq

/-- The GitLab webhook payload (interface `GitlabHookData`; the optional
`token` field is never set by the source and is omitted).  Note the record
has no event field other than `push_events`. -/
structure GitlabHookData where
  id : String
  url : String
  push_events : Bool
  enable_ssl_verification : Bool
  deriving DecidableEq

/-- `Gitlab.buildWebhookData`: default `jenkinsUrl` to
`https://jenkins.local/`, split it at the last `colon-slash-slash` into
protocol and host (a `jenkinsUrl` with no such separator makes
`urlParts[1]` raise a TypeError — modelled as `none`), embed
`user:password@` credentials when both are truthy, and use `webhookUrl`
when truthy, otherwise
`protocol, colon-slash-slash, credentials, host, /project/, jobName`.
SSL verification is enabled iff the parsed protocol is `https`. -/
def Gitlab.buildWebhookData (config : TypedGitRepoConfig) (p : GitlabParams) :
    Option GitlabHookData :=
  let jenkinsUrl := p.jenkinsUrl.getD "https://jenkins.local/"
  match execUrlPattern jenkinsUrl with
  | none => none
  | some (protocol, host) =>
    let credentials : String :=
      if jsTruthy p.jenkinsUser && jsTruthy p.jenkinsPassword then
        jsTpl p.jenkinsUser ++ ":" ++ jsTpl p.jenkinsPassword ++ "@"
      else ""
    let url : String :=
      if jsTruthy p.webhookUrl then jsTpl p.webhookUrl
      else protocol ++ "://" ++ credentials ++ host ++ "/project/" ++ jsTpl p.jobName
    some
      { id := config.owner ++ "%2F" ++ config.repo
        url := url
        push_events := true
        enable_ssl_verification := protocol == "https" }

/-- `Gitlab.getRef`: same `refs/heads/` template as the GitHub family. -/
def Gitlab.getRef (config : TypedGitRepoConfig) : String :=
  "refs/heads/" ++ config.branch

/-! ## Bitbucket adapter (`src/lib/bitbucket/index.ts`) -/

inductive BitbucketEvent where
  | push
  deriving DecidableEq

/-- The enum `BitbucketEvent` maps `push` to the text `repo:push`. -/
def bitbucketEventName : BitbucketEvent → String
  | .push => "repo:push"

inductive BitbucketTreeType where
  | commit_directory
  | commit_file
  deriving DecidableEq

/-- One entry of the Bitbucket source-tree response (interface `TreeEntry`;
`links.self.href` is flattened to `selfHref`, unused fields omitted). -/
structure BitbucketTreeEntry where
  path : String
  type : BitbucketTreeType
  selfHref : String
  deriving DecidableEq

/-- The Bitbucket source response (interface `SrcResponse`; unused paging
fields omitted). -/
structure SrcResponse where
  page : Nat
  pagelen : Nat
  values : List BitbucketTreeEntry
  deriving DecidableEq

/-- `Bitbucket.getPullRequest`: unimplemented, always throws. -/
def Bitbucket.getPullRequest (_pullNumber : Int) : Except JsError PullRequest :=
  .error (.plainError "Method not implemented: getPullRequest")

/-- `Bitbucket.createPullRequest`: unimplemented, always throws. -/
def Bitbucket.createPullRequest (_options : CreatePullRequestOptions) :
    Except JsError PullRequest :=
  .error (.plainError "Method not implemented: createPullRequest")

/-- `Bitbucket.mergePullRequest`: unimplemented, always throws. -/
def Bitbucket.mergePullRequest (_options : MergePullRequestOptions) :
    Except JsError String :=
  .error (.plainError "Method not implemented: mergePullRequest")

/-- `Bitbucket.updatePullRequestBranch`: unimplemented, always throws. -/
def Bitbucket.updatePullRequestBranch (_pullNumber : Int) : Except JsError String :=
  .error (.plainError "Method not implemented: updatePullRequestBranch")

/-- `Bitbucket.listFiles`: one `/src?pagelen=100` request, filter the
returned `values` to `commit_file` entries, map each to its path paired with
`links.self.href`. -/
def Bitbucket.listFiles (response : SrcResponse) : List FileRef :=
  (response.values.filter (fun s => s.type == BitbucketTreeType.commit_file)).map
    (fun s => { path := s.path, url := s.selfHref })

/-- Bitbucket file-contents response: the function reads only
`response.text` (the raw body text). -/
structure BitbucketFileResponse where
  text : String
  deriving DecidableEq

/-- `Bitbucket.getFileContents`: `return response.text;` — the body text is
returned verbatim, with no decoding step. -/
def Bitbucket.getFileContents (response : BitbucketFileResponse) : String :=
  response.text

/-- `Bitbucket.createWebhook` error classification: identical to the GitHub
adapter. -/
def Bitbucket.createWebhook (postResult : Except JsError String) :
    Except ThrownError String :=
  match postResult with
  | .ok id => .ok id
  | .error err =>
    if isResponseError err then
      if strContainsSubstr err.responseText "Hook already exists" then
        .error (.webhookAlreadyExists "Webhook already exists on repository" err)
      else
        .error (.unknownWebhookError "Unknown error creating webhook" err)
    else
      .error (.unknownWebhookError err.message err)

/-- The Bitbucket webhook payload (interface `BitbucketHookData`).  The
source assigns `url: webhookUrl` directly from the destructured option, so
the field is `undefined` when the option is absent — modelled as
`Option String`. -/
structure BitbucketHookData where
  description : String
  url : Option String
  active : Bool
  events : List BitbucketEvent
  deriving DecidableEq

/-- `Bitbucket.buildWebhookData`: a fixed `Webhook` description, the
verbatim `webhookUrl`, active, subscribed to `repo:push`. -/
def Bitbucket.buildWebhookData (webhookUrl : Option String) : BitbucketHookData :=
  { description := "Webhook"
    url := webhookUrl
    active := true
    events := [BitbucketEvent.push] }

/-- `Bitbucket.getRef`: the bare configured branch name. -/
def Bitbucket.getRef (config : TypedGitRepoConfig) : String :=
  config.branch

/-- A concrete configuration used by witness theorems. -/
def cfgMain : TypedGitRepoConfig :=
  { owner := "acme", repo := "widgets", protocol := "https", host := "git.example.com",
    username := "dev", password := "secret", branch := "main" }

/-! ## Claims -/

/-- The concrete failing input for claim C1: a superagent response error with
status 403, a message containing the text `secondary rate limit`, and a
`Retry-After: 2` header — exactly the situation the retry policy is for. -/
def rateLimit403 : JsError :=
  .responseError 403 "You have exceeded a secondary rate limit"
    { retryAfterHeader := some "2", text := "You have exceeded a secondary rate limit" }

/-- C1, code bug.  The claim (and the spec) say the four wrapped pull-request
operations sleep `(Retry-After, default 30) seconds + jitter` and retry on a
403 secondary-rate-limit error.  In the source, the loop body of
`GithubCommon.exec` is a `try` block that returns `f()` without `await`, so
the rejection of the wrapped call is never caught: the operation re-raises
the 403 rate-limit error on the first failure, with one invocation of the
closure, no sleep, and no retry, even though `isSecondaryRateLimit` holds for
the error. -/
theorem c1_exec_403_rate_limit_not_retried :
    isSecondaryRateLimit rateLimit403 = true ∧
    GithubCommon.getPullRequest (fun _ => .error rateLimit403) =
      ⟨.error rateLimit403, 1, []⟩ ∧
    (∀ options, GithubCommon.createPullRequest options (fun _ => .error rateLimit403) =
      ⟨.error rateLimit403, 1, []⟩) ∧
    GithubCommon.mergePullRequest (fun _ => .error rateLimit403) =
      ⟨.error rateLimit403, 1, []⟩ ∧
    GithubCommon.updatePullRequestBranch (fun _ => .error rateLimit403) =
      ⟨.error rateLimit403, 1, []⟩ :=
  ⟨by decide, rfl, fun _ => rfl, rfl, rfl⟩

/-- C2, confirmed.  Any error other than a 403 secondary-rate-limit response
raised by the first HTTP attempt of `getPullRequest`, `createPullRequest`,
`mergePullRequest` or `updatePullRequestBranch` is re-raised to the caller on
first failure: one invocation of the wrapped closure, no back-off sleep, and
the error value itself unaltered. -/
theorem c2_non_rate_limit_error_reraised (err : JsError)
    (_hrl : isSecondaryRateLimit err = false)
    (options : CreatePullRequestOptions)
    (hg : Nat → Except JsError PullResponseBody)
    (hc : Nat → Except JsError NumberBody)
    (hm hu : Nat → Except JsError MessageBody)
    (hg0 : hg 0 = .error err) (hc0 : hc 0 = .error err)
    (hm0 : hm 0 = .error err) (hu0 : hu 0 = .error err) :
    GithubCommon.getPullRequest hg = ⟨.error err, 1, []⟩ ∧
    GithubCommon.createPullRequest options hc = ⟨.error err, 1, []⟩ ∧
    GithubCommon.mergePullRequest hm = ⟨.error err, 1, []⟩ ∧
    GithubCommon.updatePullRequestBranch hu = ⟨.error err, 1, []⟩ := by
  refine ⟨?_, ?_, ?_, ?_⟩ <;>
    simp [GithubCommon.getPullRequest, GithubCommon.createPullRequest,
      GithubCommon.mergePullRequest, GithubCommon.updatePullRequestBranch,
      GithubCommon.exec, hg0, hc0, hm0, hu0, Except.map]

/-- Witness for C2 at a concrete non-rate-limit error. -/
theorem c2_witness :
    isSecondaryRateLimit (JsError.plainError "ECONNRESET") = false ∧
    (GithubCommon.getPullRequest (fun _ => .error (JsError.plainError "ECONNRESET")) =
        ⟨.error (JsError.plainError "ECONNRESET"), 1, []⟩ ∧
      GithubCommon.createPullRequest ⟨"title", "feature", "main", true, none⟩
          (fun _ => .error (JsError.plainError "ECONNRESET")) =
        ⟨.error (JsError.plainError "ECONNRESET"), 1, []⟩ ∧
      GithubCommon.mergePullRequest (fun _ => .error (JsError.plainError "ECONNRESET")) =
        ⟨.error (JsError.plainError "ECONNRESET"), 1, []⟩ ∧
      GithubCommon.updatePullRequestBranch
          (fun _ => .error (JsError.plainError "ECONNRESET")) =
        ⟨.error (JsError.plainError "ECONNRESET"), 1, []⟩) :=
  ⟨by decide,
    c2_non_rate_limit_error_reraised _ (by decide) _ _ _ _ _ rfl rfl rfl rfl⟩

/-- C3, confirmed.  For all three adapters, a failed `createWebhook` POST is
classified: a response error whose body text contains `Hook already exists`
raises `WebhookAlreadyExists` carrying the original error; any other
response error raises `UnknownWebhookError` carrying the original error; a
non-response error raises `UnknownWebhookError` with the original message
and cause; and no call ever re-raises the underlying error unclassified. -/
theorem c3_createWebhook_classification :
    (∀ err : JsError, isResponseError err = true →
      strContainsSubstr err.responseText "Hook already exists" = true →
        GithubCommon.createWebhook (.error err) =
            .error (.webhookAlreadyExists "Webhook already exists on repository" err) ∧
          Gitlab.createWebhook (.error err) =
            .error (.webhookAlreadyExists "Webhook already exists on repository" err) ∧
          Bitbucket.createWebhook (.error err) =
            .error (.webhookAlreadyExists "Webhook already exists on repository" err)) ∧
    (∀ err : JsError, isResponseError err = true →
      strContainsSubstr err.responseText "Hook already exists" = false →
        GithubCommon.createWebhook (.error err) =
            .error (.unknownWebhookError "Unknown error creating webhook" err) ∧
          Gitlab.createWebhook (.error err) =
            .error (.unknownWebhookError "Unknown error creating webhook" err) ∧
          Bitbucket.createWebhook (.error err) =
            .error (.unknownWebhookError "Unknown error creating webhook" err)) ∧
    (∀ err : JsError, isResponseError err = false →
        GithubCommon.createWebhook (.error err) =
            .error (.unknownWebhookError err.message err) ∧
          Gitlab.createWebhook (.error err) =
            .error (.unknownWebhookError err.message err) ∧
          Bitbucket.createWebhook (.error err) =
            .error (.unknownWebhookError err.message err)) ∧
    (∀ (postResult : Except JsError String) (e : JsError),
        GithubCommon.createWebhook postResult ≠ .error (.js e) ∧
        Gitlab.createWebhook postResult ≠ .error (.js e) ∧
        Bitbucket.createWebhook postResult ≠ .error (.js e)) := by
  refine ⟨?_, ?_, ?_, ?_⟩
  · intro err h1 h2
    simp [GithubCommon.createWebhook, Gitlab.createWebhook, Bitbucket.createWebhook, h1, h2]
  · intro err h1 h2
    simp [GithubCommon.createWebhook, Gitlab.createWebhook, Bitbucket.createWebhook, h1, h2]
  · intro err h1
    simp [GithubCommon.createWebhook, Gitlab.createWebhook, Bitbucket.createWebhook, h1]
  · intro postResult e
    rcases postResult with err | id
    · rcases Bool.eq_false_or_eq_true (isResponseError err) with h1 | h1 <;>
        rcases Bool.eq_false_or_eq_true
            (strContainsSubstr err.responseText "Hook already exists") with h2 | h2 <;>
          simp [GithubCommon.createWebhook, Gitlab.createWebhook,
            Bitbucket.createWebhook, h1, h2]
    · simp [GithubCommon.createWebhook, Gitlab.createWebhook, Bitbucket.createWebhook]

/-- A webhook-creation failure whose body text contains `Hook already
exists`. -/
def errHookExists : JsError :=
  .responseError 422 "Unprocessable Entity"
    { retryAfterHeader := none,
      text := "Validation Failed: Hook already exists on this repository" }

/-- A webhook-creation response failure with an unrelated body. -/
def errServerFail : JsError :=
  .responseError 500 "Internal Server Error" { retryAfterHeader := none, text := "boom" }

/-- A non-response (network-level) failure. -/
def errSocket : JsError := .plainError "socket hang up"

/-- Witness for C3 covering the three classification branches. -/
theorem c3_witness :
    (isResponseError errHookExists = true ∧
      strContainsSubstr errHookExists.responseText "Hook already exists" = true ∧
      GithubCommon.createWebhook (.error errHookExists) =
        .error (.webhookAlreadyExists "Webhook already exists on repository" errHookExists)) ∧
    (isResponseError errServerFail = true ∧
      strContainsSubstr errServerFail.responseText "Hook already exists" = false ∧
      Gitlab.createWebhook (.error errServerFail) =
        .error (.unknownWebhookError "Unknown error creating webhook" errServerFail)) ∧
    (isResponseError errSocket = false ∧
      Bitbucket.createWebhook (.error errSocket) =
        .error (.unknownWebhookError "socket hang up" errSocket)) := by
  refine ⟨⟨by decide, by decide, ?_⟩, ⟨by decide, by decide, ?_⟩, ⟨by decide, ?_⟩⟩
  · exact (c3_createWebhook_classification.1 errHookExists (by decide) (by decide)).1
  · exact (c3_createWebhook_classification.2.1 errServerFail (by decide) (by decide)).2.1
  · exact (c3_createWebhook_classification.2.2.1 errSocket (by decide)).2.2

/-- C4, counterexample.  The Bitbucket adapter does not decode: given a
response whose body text is the base64 payload `aGVsbG8=`, its
`getFileContents` returns that text verbatim, whose bytes are not the bytes
of `hello` (which the base64 decoding would have produced). -/
theorem c4_counterexample_bitbucket_no_decoding :
    Bitbucket.getFileContents { text := "aGVsbG8=" } = "aGVsbG8=" ∧
    asciiBytes (Bitbucket.getFileContents { text := "aGVsbG8=" }) ≠ asciiBytes "hello" ∧
    base64Decode "aGVsbG8=" = asciiBytes "hello" :=
  ⟨rfl, by decide, by decide⟩

/-- C4, amended.  The GitHub-family and GitLab adapters decode the base64
transfer encoding declared by their file-contents responses, so content
`aGVsbG8=` yields the bytes of `hello`; the Bitbucket adapter returns the
response body text verbatim, with no decoding step (its raw-content endpoint
declares no transfer encoding). -/
theorem c4_amended_getFileContents_decoding :
    GithubCommon.getFileContents { content := "aGVsbG8=", encoding := .base64 } =
      asciiBytes "hello" ∧
    Gitlab.getFileContents { content := "aGVsbG8=", encoding := .base64 } =
      asciiBytes "hello" ∧
    (∀ response : BitbucketFileResponse, Bitbucket.getFileContents response = response.text) :=
  ⟨by decide, by decide, fun _ => rfl⟩

/-- C5, confirmed.  The four pull-request operations on the GitLab and
Bitbucket adapters fail on every input — they always return an error and
never a value — and the message of the thrown error names the attempted
operation. -/
theorem c5_pull_request_ops_not_implemented :
    (∀ n : Int, Gitlab.getPullRequest n =
        .error (.plainError "Method not implemented: getPullRequest")) ∧
    (∀ o, Gitlab.createPullRequest o =
        .error (.plainError "Method not implemented: createPullRequest")) ∧
    (∀ o, Gitlab.mergePullRequest o =
        .error (.plainError "Method not implemented: mergePullRequest")) ∧
    (∀ n : Int, Gitlab.updatePullRequestBranch n =
        .error (.plainError "Method not implemented: updatePullRequestBranch")) ∧
    (∀ n : Int, Bitbucket.getPullRequest n =
        .error (.plainError "Method not implemented: getPullRequest")) ∧
    (∀ o, Bitbucket.createPullRequest o =
        .error (.plainError "Method not implemented: createPullRequest")) ∧
    (∀ o, Bitbucket.mergePullRequest o =
        .error (.plainError "Method not implemented: mergePullRequest")) ∧
    (∀ n : Int, Bitbucket.updatePullRequestBranch n =
        .error (.plainError "Method not implemented: updatePullRequestBranch")) ∧
    strContainsSubstr "Method not implemented: getPullRequest" "getPullRequest" = true ∧
    strContainsSubstr "Method not implemented: createPullRequest" "createPullRequest" = true ∧
    strContainsSubstr "Method not implemented: mergePullRequest" "mergePullRequest" = true ∧
    strContainsSubstr "Method not implemented: updatePullRequestBranch"
      "updatePullRequestBranch" = true :=
  ⟨fun _ => rfl, fun _ => rfl, fun _ => rfl, fun _ => rfl,
   fun _ => rfl, fun _ => rfl, fun _ => rfl, fun _ => rfl,
   by decide, by decide, by decide, by decide⟩

/-- JS `String.prototype.startsWith` (used to state the leading-only reading
of claim C6). -/
def strStartsWith (s pat : String) : Bool :=
  pat.data.isPrefixOf s.data

/-- A character list with no occurrence of `pat` is left unchanged by
`removeFirstSub`. -/
theorem removeFirstSub_of_not_contains (pat : List Char) (l : List Char)
    (h : containsSub pat l = false) : removeFirstSub pat l = l := by
  induction l with
  | nil => rfl
  | cons c rest ih =>
    unfold containsSub at h
    rw [Bool.or_eq_false_iff] at h
    unfold removeFirstSub
    simp [h.1, ih h.2]

/-- A GitLab tree entry whose path contains `files/` in the middle but not at
the start. -/
def entryInteriorFiles : GitlabTreeEntry :=
  { id := "e1", name := "b.txt", type := .blob, path := "a/files/b.txt", mode := "100644" }

/-- C6, counterexample.  The claim says only a LEADING `files/` prefix is
stripped and a path not starting with `files/` is returned unchanged.  The
source calls `path.replace` with a plain string pattern, which removes the
first occurrence anywhere: for the blob path `a/files/b.txt` — which does
not start with `files/` — `listFiles` returns the rewritten path `a/b.txt`,
not the unchanged one. -/
theorem c6_counterexample_interior_segment_stripped :
    strStartsWith "a/files/b.txt" "files/" = false ∧
    (Gitlab.listFiles cfgMain [entryInteriorFiles]).map FileRef.path = ["a/b.txt"] ∧
    ("a/b.txt" : String) ≠ "a/files/b.txt" :=
  ⟨by decide, by decide, by decide⟩

/-- C6, amended.  GitLab `listFiles` rewrites each blob entry path by
removing the FIRST occurrence of the literal `files/` anywhere in the path
(a path with no occurrence is unchanged; the rewrite is not restricted to a
leading prefix), while the contents URL built for the entry uses the
original, unrewritten tree path. -/
theorem c6_amended_path_rewrite (config : TypedGitRepoConfig)
    (ts : List GitlabTreeEntry) (e : FileRef) (p : String)
    (hp : strContainsSubstr p "files/" = false) :
    (e ∈ Gitlab.listFiles config ts ↔
      ∃ t, t ∈ ts ∧ t.type = GitlabTreeType.blob ∧
        e = { path := strRemoveFirst t.path "files/",
              url := Gitlab.getBaseUrl config ++ "/repository/" ++ t.path }) ∧
    strRemoveFirst p "files/" = p := by
  constructor
  · constructor
    · intro he
      simp only [Gitlab.listFiles, List.mem_map, List.mem_filter, beq_iff_eq] at he
      obtain ⟨t, ⟨ht, hty⟩, rfl⟩ := he
      exact ⟨t, ht, hty, rfl⟩
    · rintro ⟨t, ht, hty, rfl⟩
      simp only [Gitlab.listFiles, List.mem_map, List.mem_filter, beq_iff_eq]
      exact ⟨t, ⟨ht, hty⟩, rfl⟩
  · have h2 : removeFirstSub "files/".data p.data = p.data :=
      removeFirstSub_of_not_contains _ _ hp
    show String.mk (removeFirstSub "files/".data p.data) = p
    rw [h2]

/-- A GitLab tree entry whose path begins with `files/`. -/
def entryLeadingFiles : GitlabTreeEntry :=
  { id := "e2", name := "config.yaml", type := .blob, path := "files/config.yaml",
    mode := "100644" }

/-- Witness for C6 at a concrete tree and a concrete occurrence-free path. -/
theorem c6_witness :
    strContainsSubstr "README.md" "files/" = false ∧
    ((({ path := "config.yaml",
         url := Gitlab.getBaseUrl cfgMain ++ "/repository/files/config.yaml" } : FileRef) ∈
          Gitlab.listFiles cfgMain [entryLeadingFiles] ↔
        ∃ t, t ∈ [entryLeadingFiles] ∧ t.type = GitlabTreeType.blob ∧
          ({ path := "config.yaml",
             url := Gitlab.getBaseUrl cfgMain ++ "/repository/files/config.yaml" } : FileRef) =
            { path := strRemoveFirst t.path "files/",
              url := Gitlab.getBaseUrl cfgMain ++ "/repository/" ++ t.path }) ∧
      strRemoveFirst "README.md" "files/" = "README.md") :=
  ⟨by decide,
    c6_amended_path_rewrite cfgMain [entryLeadingFiles] _ "README.md" (by decide)⟩

/-- C7, confirmed.  Every entry of a `listFiles` result comes from a
file-type entry of the tree response — `blob` for GitHub and GitLab,
`commit_file` for Bitbucket — so no directory/tree-type entry ever appears
in the result of any adapter. -/
theorem c7_listFiles_no_directory_entries :
    (∀ (response : TreeResponse) (e : GithubTreeEntry),
        e ∈ GithubCommon.listFiles response → e.type = GithubTreeType.blob) ∧
    (∀ (config : TypedGitRepoConfig) (ts : List GitlabTreeEntry) (e : FileRef),
        e ∈ Gitlab.listFiles config ts →
          ∃ t, t ∈ ts ∧ t.type = GitlabTreeType.blob ∧
            e = { path := strRemoveFirst t.path "files/",
                  url := Gitlab.getBaseUrl config ++ "/repository/" ++ t.path }) ∧
    (∀ (response : SrcResponse) (e : FileRef),
        e ∈ Bitbucket.listFiles response →
          ∃ t, t ∈ response.values ∧ t.type = BitbucketTreeType.commit_file ∧
            e = { path := t.path, url := t.selfHref }) := by
  refine ⟨?_, ?_, ?_⟩
  · intro response e he
    simp only [GithubCommon.listFiles, List.mem_filter, beq_iff_eq] at he
    exact he.2
  · intro config ts e he
    simp only [Gitlab.listFiles, List.mem_map, List.mem_filter, beq_iff_eq] at he
    obtain ⟨t, ⟨ht, hty⟩, rfl⟩ := he
    exact ⟨t, ht, hty, rfl⟩
  · intro response e he
    simp only [Bitbucket.listFiles, List.mem_map, List.mem_filter, beq_iff_eq] at he
    obtain ⟨t, ⟨ht, hty⟩, rfl⟩ := he
    exact ⟨t, ht, hty, rfl⟩

/-- A GitHub blob entry used in the C7 witness. -/
def ghReadme : GithubTreeEntry :=
  { path := "README.md", mode := "100644", type := .blob, sha := "s1", url := "u1" }

/-- A GitHub tree response mixing a blob and a tree entry. -/
def githubMixedResponse : TreeResponse :=
  { sha := "abc", url := "https://api.github.com/repos/acme/widgets/git/trees/main",
    tree :=
      [ ghReadme,
        { path := "docs", mode := "040000", type := .tree, sha := "s2", url := "u2" } ] }

/-- A GitLab tree mixing a blob and a tree entry. -/
def gitlabMixedTree : List GitlabTreeEntry :=
  [ { id := "1", name := "README.md", type := .blob, path := "README.md", mode := "100644" },
    { id := "2", name := "docs", type := .tree, path := "docs", mode := "040000" } ]

/-- The file reference GitLab `listFiles` produces for the blob entry of
`gitlabMixedTree`. -/
def glReadmeRef : FileRef :=
  { path := "README.md", url := Gitlab.getBaseUrl cfgMain ++ "/repository/README.md" }

/-- A Bitbucket source response mixing a file and a directory entry. -/
def bitbucketMixedSrc : SrcResponse :=
  { page := 1, pagelen := 100,
    values :=
      [ { path := "README.md", type := .commit_file,
          selfHref := "https://api.bitbucket.org/f1" },
        { path := "docs", type := .commit_directory,
          selfHref := "https://api.bitbucket.org/d1" } ] }

/-- The file reference Bitbucket `listFiles` produces for the file entry of
`bitbucketMixedSrc`. -/
def bbReadmeRef : FileRef :=
  { path := "README.md", url := "https://api.bitbucket.org/f1" }

/-- Witness for C7 on concrete mixed tree responses for all three adapters. -/
theorem c7_witness :
    (ghReadme ∈ GithubCommon.listFiles githubMixedResponse ∧
      ghReadme.type = GithubTreeType.blob) ∧
    (glReadmeRef ∈ Gitlab.listFiles cfgMain gitlabMixedTree ∧
      ∃ t, t ∈ gitlabMixedTree ∧ t.type = GitlabTreeType.blob ∧
        glReadmeRef = { path := strRemoveFirst t.path "files/",
                        url := Gitlab.getBaseUrl cfgMain ++ "/repository/" ++ t.path }) ∧
    (bbReadmeRef ∈ Bitbucket.listFiles bitbucketMixedSrc ∧
      ∃ t, t ∈ bitbucketMixedSrc.values ∧ t.type = BitbucketTreeType.commit_file ∧
        bbReadmeRef = { path := t.path, url := t.selfHref }) := by
  have hg : ghReadme ∈ GithubCommon.listFiles githubMixedResponse := by decide
  have hl : glReadmeRef ∈ Gitlab.listFiles cfgMain gitlabMixedTree := by decide
  have hb : bbReadmeRef ∈ Bitbucket.listFiles bitbucketMixedSrc := by decide
  exact ⟨⟨hg, c7_listFiles_no_directory_entries.1 _ _ hg⟩,
    ⟨hl, c7_listFiles_no_directory_entries.2.1 _ _ _ hl⟩,
    ⟨hb, c7_listFiles_no_directory_entries.2.2 _ _ hb⟩⟩

/-- Shape of the GitLab hook payload when the Jenkins URL parses: spelled-out
form of `Gitlab.buildWebhookData` with the two parse results substituted. -/
theorem gitlab_buildWebhookData_some (config : TypedGitRepoConfig) (p : GitlabParams)
    (protocol host : String)
    (hx : execUrlPattern (p.jenkinsUrl.getD "https://jenkins.local/") =
      some (protocol, host)) :
    Gitlab.buildWebhookData config p = some
      { id := config.owner ++ "%2F" ++ config.repo
        url :=
          if jsTruthy p.webhookUrl then jsTpl p.webhookUrl
          else protocol ++ "://" ++
            (if jsTruthy p.jenkinsUser && jsTruthy p.jenkinsPassword then
              jsTpl p.jenkinsUser ++ ":" ++ jsTpl p.jenkinsPassword ++ "@"
            else "") ++ host ++ "/project/" ++ jsTpl p.jobName
        push_events := true
        enable_ssl_verification := protocol == "https" } := by
  simp only [Gitlab.buildWebhookData, hx]

/-- When the Jenkins URL has no separator, `Gitlab.buildWebhookData` produces
no payload (the source raises a TypeError on `urlParts[1]`). -/
theorem gitlab_buildWebhookData_none (config : TypedGitRepoConfig) (p : GitlabParams)
    (hx : execUrlPattern (p.jenkinsUrl.getD "https://jenkins.local/") = none) :
    Gitlab.buildWebhookData config p = none := by
  simp only [Gitlab.buildWebhookData, hx]

/-- C8, confirmed.  For each adapter, a truthy `webhookUrl` is used verbatim
as the hook URL; with no `webhookUrl`, GitHub appends the fixed
`/github-webhook/` suffix to `jenkinsUrl`, and GitLab defaults `jenkinsUrl`
to `https://jenkins.local/` and derives
protocol, separator, optional `user:password@` credentials, parsed host,
`/project/`, job name.  (The parsed host keeps the trailing slash of the
default `jenkinsUrl`, so the derived URL contains a double slash before
`project` — the structure is as claimed with host as parsed.) -/
theorem c8_webhook_url_selection :
    (∀ p : GithubWebhookParams, jsTruthy p.webhookUrl = true →
        (GithubCommon.buildWebhookData p).config.url = jsTpl p.webhookUrl) ∧
    (∀ (p : GithubWebhookParams) (j : String), jsTruthy p.webhookUrl = false →
      p.jenkinsUrl = some j →
        (GithubCommon.buildWebhookData p).config.url = j ++ "/github-webhook/") ∧
    (∀ (config : TypedGitRepoConfig) (p : GitlabParams) (d : GitlabHookData),
        Gitlab.buildWebhookData config p = some d → jsTruthy p.webhookUrl = true →
          d.url = jsTpl p.webhookUrl) ∧
    (∀ (config : TypedGitRepoConfig) (p : GitlabParams),
        p.jenkinsUrl = none → jsTruthy p.webhookUrl = false →
          ∃ d, Gitlab.buildWebhookData config p = some d ∧
            d.url = "https" ++ "://" ++
              (if jsTruthy p.jenkinsUser && jsTruthy p.jenkinsPassword then
                jsTpl p.jenkinsUser ++ ":" ++ jsTpl p.jenkinsPassword ++ "@"
              else "") ++ "jenkins.local/" ++ "/project/" ++ jsTpl p.jobName) ∧
    (∀ u : String, (Bitbucket.buildWebhookData (some u)).url = some u) := by
  refine ⟨?_, ?_, ?_, ?_, fun u => rfl⟩
  · intro p hw
    simp [GithubCommon.buildWebhookData, hw]
  · intro p j hw hj
    simp [GithubCommon.buildWebhookData, hw, hj, jsTpl]
  · intro config p d hd hw
    cases hx : execUrlPattern (p.jenkinsUrl.getD "https://jenkins.local/") with
    | none =>
      rw [gitlab_buildWebhookData_none config p hx] at hd
      exact Option.noConfusion hd
    | some pr =>
      obtain ⟨protocol, host⟩ := pr
      rw [gitlab_buildWebhookData_some config p protocol host hx] at hd
      have h2 := (Option.some.inj hd).symm
      subst h2
      simp [hw]
  · intro config p hj hw
    refine ⟨_, gitlab_buildWebhookData_some config p "https" "jenkins.local/" ?_, ?_⟩
    · rw [hj]; decide
    · simp [hw]

/-- GitHub webhook options with an explicit hook URL. -/
def ghParamsHook : GithubWebhookParams :=
  { jenkinsUrl := none, webhookUrl := some "https://hooks.example.com/h" }

/-- GitHub webhook options with only a Jenkins URL. -/
def ghParamsJenkins : GithubWebhookParams :=
  { jenkinsUrl := some "https://jenkins.example.com", webhookUrl := none }

/-- GitLab webhook params with an explicit hook URL. -/
def glParamsHook : GitlabParams :=
  { owner := "acme", repo := "widgets", jenkinsUrl := none, jenkinsUser := none,
    jenkinsPassword := none, jobName := none,
    webhookUrl := some "https://hooks.example.com/h" }

/-- GitLab webhook params deriving the URL from the default Jenkins URL with
credentials and a job name. -/
def glParamsJenkins : GitlabParams :=
  { owner := "acme", repo := "widgets", jenkinsUrl := none, jenkinsUser := some "jk",
    jenkinsPassword := some "pw", jobName := some "build-widgets", webhookUrl := none }

/-- The hook payload GitLab builds for `glParamsHook` under `cfgMain`. -/
def glHookDataHook : GitlabHookData :=
  { id := "acme%2Fwidgets", url := "https://hooks.example.com/h", push_events := true,
    enable_ssl_verification := true }

/-- Witness for C8 on concrete option bags for all three adapters. -/
theorem c8_witness :
    (jsTruthy ghParamsHook.webhookUrl = true ∧
      (GithubCommon.buildWebhookData ghParamsHook).config.url =
        jsTpl ghParamsHook.webhookUrl) ∧
    (jsTruthy ghParamsJenkins.webhookUrl = false ∧
      ghParamsJenkins.jenkinsUrl = some "https://jenkins.example.com" ∧
      (GithubCommon.buildWebhookData ghParamsJenkins).config.url =
        "https://jenkins.example.com" ++ "/github-webhook/") ∧
    (Gitlab.buildWebhookData cfgMain glParamsHook = some glHookDataHook ∧
      jsTruthy glParamsHook.webhookUrl = true ∧
      glHookDataHook.url = jsTpl glParamsHook.webhookUrl) ∧
    (glParamsJenkins.jenkinsUrl = none ∧ jsTruthy glParamsJenkins.webhookUrl = false ∧
      ∃ d, Gitlab.buildWebhookData cfgMain glParamsJenkins = some d ∧
        d.url = "https" ++ "://" ++
          (if jsTruthy glParamsJenkins.jenkinsUser &&
              jsTruthy glParamsJenkins.jenkinsPassword then
            jsTpl glParamsJenkins.jenkinsUser ++ ":" ++
              jsTpl glParamsJenkins.jenkinsPassword ++ "@"
          else "") ++ "jenkins.local/" ++ "/project/" ++ jsTpl glParamsJenkins.jobName) ∧
    (Bitbucket.buildWebhookData (some "https://hooks.example.com/h")).url =
      some "https://hooks.example.com/h" :=
  ⟨⟨by decide, c8_webhook_url_selection.1 ghParamsHook (by decide)⟩,
    ⟨by decide, rfl,
      c8_webhook_url_selection.2.1 ghParamsJenkins "https://jenkins.example.com"
        (by decide) rfl⟩,
    ⟨by decide, by decide,
      c8_webhook_url_selection.2.2.1 cfgMain glParamsHook glHookDataHook (by decide)
        (by decide)⟩,
    ⟨rfl, by decide,
      c8_webhook_url_selection.2.2.2.1 cfgMain glParamsJenkins rfl (by decide)⟩,
    c8_webhook_url_selection.2.2.2.2 "https://hooks.example.com/h"⟩

/-- C9, confirmed.  With configured branch `main`, `getRef` returns
`refs/heads/main` on the GitHub family and GitLab, and the bare branch name
`main` on Bitbucket. -/
theorem c9_getRef_vendor_canonical (config : TypedGitRepoConfig)
    (h : config.branch = "main") :
    GithubCommon.getRef config = "refs/heads/main" ∧
    Gitlab.getRef config = "refs/heads/main" ∧
    Bitbucket.getRef config = "main" := by
  refine ⟨?_, ?_, h⟩
  · show "refs/heads/" ++ config.branch = "refs/heads/main"
    rw [h]
    decide
  · show "refs/heads/" ++ config.branch = "refs/heads/main"
    rw [h]
    decide

/-- Witness for C9 at the concrete configuration. -/
theorem c9_witness :
    cfgMain.branch = "main" ∧
    (GithubCommon.getRef cfgMain = "refs/heads/main" ∧
      Gitlab.getRef cfgMain = "refs/heads/main" ∧
      Bitbucket.getRef cfgMain = "main") :=
  ⟨rfl, c9_getRef_vendor_canonical cfgMain rfl⟩

/-- C10, confirmed.  Every webhook payload built by the adapters is
registered as active and subscribed to the push event only: GitHub sets
`active` and `events = [push]` (named `push`); Bitbucket sets `active` and
`events = [push]` (named `repo:push`); every GitLab payload produced sets
`push_events = true` and its record carries no other event subscription
field. -/
theorem c10_webhook_active_push_only :
    (∀ p : GithubWebhookParams,
        (GithubCommon.buildWebhookData p).active = true ∧
        (GithubCommon.buildWebhookData p).events = [GithubEvent.push]) ∧
    (∀ (config : TypedGitRepoConfig) (p : GitlabParams) (d : GitlabHookData),
        Gitlab.buildWebhookData config p = some d → d.push_events = true) ∧
    (∀ w : Option String,
        (Bitbucket.buildWebhookData w).active = true ∧
        (Bitbucket.buildWebhookData w).events = [BitbucketEvent.push]) ∧
    githubEventName GithubEvent.push = "push" ∧
    bitbucketEventName BitbucketEvent.push = "repo:push" := by
  refine ⟨fun p => ⟨rfl, rfl⟩, ?_, fun w => ⟨rfl, rfl⟩, rfl, rfl⟩
  intro config p d hd
  cases hx : execUrlPattern (p.jenkinsUrl.getD "https://jenkins.local/") with
  | none =>
    rw [gitlab_buildWebhookData_none config p hx] at hd
    exact Option.noConfusion hd
  | some pr =>
    obtain ⟨protocol, host⟩ := pr
    rw [gitlab_buildWebhookData_some config p protocol host hx] at hd
    have h2 := (Option.some.inj hd).symm
    subst h2
    rfl

/-- Witness for C10 at a concrete GitLab payload. -/
theorem c10_witness :
    Gitlab.buildWebhookData cfgMain glParamsHook = some glHookDataHook ∧
    glHookDataHook.push_events = true :=
  ⟨by decide,
    c10_webhook_active_push_only.2.1 cfgMain glParamsHook glHookDataHook (by decide)⟩

end GitClient
